import Mathlib

/-!
Verification development for the CareChain dashboard's offline-first
synchronization logic (`src/frontend/pages/dashboard.js`).

The embedding models the three functions the claims are about:
`fetchPatients` (list read with cache fallback), `syncPendingPatients`
(pending-record drain), and `handlePatientSubmit` (create with offline
queueing), together with the IndexedDB-backed collections `patients`
(confirmed cache) and `pending` (both keyed by `id`, upsert-by-key `put`).
Network calls are modelled by explicit result parameters / oracles supplied
to each function; React `setX` state updates become fields of an explicit
result record; toasts are recorded as observable fields.
-/

namespace CareChain

/-- A JavaScript form-field value: the `age` field of the draft holds either a
string (as delivered by the input element) or a number.  Falsiness of these two
shapes is what the validation check `!newPatient.age` tests. -/
inductive JSVal where
  | str (s : String)
  | num (n : Int)
deriving DecidableEq, Repr

/-- JavaScript falsiness for the modelled value shapes: `""` and `0` are falsy. -/
def JSVal.falsy : JSVal → Bool
  | .str s => s = ""
  | .num n => n = 0

/-- Model of `Number(v)` on the modelled shapes.  Non-numeric strings (which would give
`NaN` in JS) are mapped to `0`; no claim depends on the numeric value of a
non-numeric age. -/
def jsNumber : JSVal → Int
  | .num n => n
  | .str s => (s.toInt?).getD 0

/-- A patient record as stored in the pending collection, the confirmed cache,
and the in-memory `patients` list.  `offline` models the `offline: true` marker
placed on locally queued records; server-returned records carry no `offline`
property, which reads as falsy, so they are embedded with `offline := false`. -/
structure Patient where
  id : String
  fullName : String
  age : Int
  gender : String
  bloodType : Option String
  condition : String
  severity : String
  warnings : List String
  allergies : String
  symptoms : String
  emergencyContact : String
  insuranceInfo : String
  offline : Bool
deriving DecidableEq, Repr

/-- The `newPatient` form draft.  `warnings` is kept as the array the form
maintains (the `Array.isArray` branch of the submit handler). -/
structure Draft where
  fullName : String
  age : JSVal
  gender : String
  bloodType : String
  condition : String
  severity : String
  warnings : List String
  allergies : String
  symptoms : String
  emergencyContact : String
  insuranceInfo : String
deriving DecidableEq, Repr

/-- The temporary identifier assigned to an offline-created record:
`` `offline-${Date.now()}` ``. -/
def tempId (now : Nat) : String := "offline-" ++ toString now

/-- The offline record built in the `!isOnline` branch of `handlePatientSubmit`:
the server-shape `patientData` (trimmed fields, `|| "male"` / `|| "medium"` /
`|| null` defaults) plus the temporary id, a `fullName` copy and `offline: true`. -/
def mkOfflinePatient (d : Draft) (now : Nat) : Patient :=
  { id := tempId now
    fullName := d.fullName.trim
    age := jsNumber d.age
    gender := if d.gender = "" then "male" else d.gender
    bloodType := if d.bloodType = "" then none else some d.bloodType
    condition := d.condition.trim
    severity := if d.severity = "" then "medium" else d.severity
    warnings := d.warnings
    allergies := d.allergies.trim
    symptoms := d.symptoms.trim
    emergencyContact := d.emergencyContact.trim
    insuranceInfo := d.insuranceInfo.trim
    offline := true }

/-- IndexedDB `put` on a collection with `keyPath: 'id'`: upsert by key. -/
def pendingPut (store : List Patient) (p : Patient) : List Patient :=
  if store.any (fun q => q.id == p.id) then
    store.map (fun q => if q.id == p.id then p else q)
  else store ++ [p]

/-- IndexedDB `delete(collection, key)`: remove the record with the given key. -/
def storeDelete (store : List Patient) (key : String) : List Patient :=
  store.filter (fun q => q.id != key)

/-- Result of one POST of a pending record during a sync pass: `some r` is a
2xx response carrying server record `r`; `none` is the failure branch (network
error or non-2xx response, both of which throw in axios and land in the inner
`catch`). -/
abbrev PostOracle := Patient → Option Patient

/-- The observable outcome of the `for (const patient of pending)` loop of
`syncPendingPatients`: the pending store after the in-loop deletes, the
accumulated `synced` responses, whether the failure branch (= `break`) was hit,
and the list of records actually POSTed, in order. -/
structure LoopResult where
  store : List Patient
  synced : List Patient
  failed : Bool
  postsIssued : List Patient
deriving DecidableEq, Repr

/-- The sync loop: for each pending record in snapshot order, POST it; on
success delete it from the pending store and accumulate the response; on
failure stop (`break`), leaving the store as it stands. -/
def runSyncLoop (post : PostOracle) (store : List Patient) :
    List Patient → LoopResult
  | [] => { store := store, synced := [], failed := false, postsIssued := [] }
  | p :: rest =>
    match post p with
    | some r =>
      let t := runSyncLoop post (storeDelete store p.id) rest
      { store := t.store, synced := r :: t.synced, failed := t.failed,
        postsIssued := p :: t.postsIssued }
    | none =>
      { store := store, synced := [], failed := true, postsIssued := [p] }

/-- Sync status values. -/
inductive SyncStatus where
  | upToDate
  | syncing
  | error
deriving DecidableEq, Repr

/-- The component state `syncPendingPatients` reads and writes: connectivity
flag, auth token, the persisted pending collection, the in-memory `patients`
list, and the sync status. -/
structure SyncState where
  isOnline : Bool
  token : Option String
  pendingStore : List Patient
  patients : List Patient
  syncStatus : SyncStatus
deriving DecidableEq, Repr

/-- JS falsiness of the token (`!token`): absent or empty string. -/
def tokenFalsy : Option String → Bool
  | none => true
  | some t => t = ""

/-- Outcome of one call to `syncPendingPatients`: the new state, the POSTs
issued during the pass, whether the in-loop failure branch ran (it sets status
`error` and breaks), and the fact that `logout()` is never invoked by this
function. -/
structure SyncOutcome where
  state : SyncState
  postsIssued : List Patient
  loopFailed : Bool
  loggedOut : Bool
deriving DecidableEq, Repr

/-- Model of `syncPendingPatients`: guard on `!isOnline || !token`; set status
`syncing`; snapshot the pending collection; if empty set `up-to-date` and
return; otherwise run the drain loop and, if anything synced, replace the
in-memory list by `prev.filter(p => !p.offline) ++ synced`.  After the loop the
source executes `setSyncStatus('up-to-date')` unconditionally, so the final
status is `up-to-date` even when the failure branch set `error` and broke out
of the loop. -/
def syncPendingPatients (post : PostOracle) (s : SyncState) : SyncOutcome :=
  if !s.isOnline || tokenFalsy s.token then
    { state := s, postsIssued := [], loopFailed := false, loggedOut := false }
  else
    let pending := s.pendingStore
    if pending.isEmpty then
      { state := { s with syncStatus := .upToDate }, postsIssued := [],
        loopFailed := false, loggedOut := false }
    else
      let t := runSyncLoop post s.pendingStore pending
      let newPatients :=
        if t.synced.length > 0 then
          (s.patients.filter (fun p => !p.offline)) ++ t.synced
        else s.patients
      let s' : SyncState :=
        { s with pendingStore := t.store, patients := newPatients, syncStatus := .upToDate }
      { state := s', postsIssued := t.postsIssued, loopFailed := t.failed, loggedOut := false }

/-- Result of the single online POST of `handlePatientSubmit`: a 2xx response
carrying the created record, an HTTP error response with a status code
(`error.response.status`), or a transport failure (no response object at all:
network unreachable, timeout). -/
inductive NetPost where
  | ok (rec : Patient)
  | httpErr (status : Nat)
  | transportErr
deriving DecidableEq, Repr

/-- Observable outcome of one `handlePatientSubmit` call: the in-memory list,
the pending store, how many POSTs were issued (0 or 1), whether `logout()` ran,
the error toast shown if any, and whether the offline-save branch ran. -/
structure SubmitResult where
  patients : List Patient
  pendingStore : List Patient
  postsIssued : Nat
  loggedOut : Bool
  errorToast : Option String
  savedOffline : Bool
deriving DecidableEq, Repr

/-- Model of `handlePatientSubmit`: validate `!fullName || !age || !condition` (falsy
check) before any I/O; if offline, build the offline record and `put` it into
`pending` and append it to the in-memory list, with no network call; if online,
POST once and dispatch on the result — 2xx appends the response, 422 shows the
server validation message, 401 shows the session-expired message and calls
`logout()` with a redirect, other statuses show a server-error message, and a
transport error (no `error.response`) keeps the default message
`'Failed to add patient'`.  The exact 422/other-status message text is derived
from the response body in the source; it is modelled by a fixed representative
string per branch, which no claim inspects. -/
def handlePatientSubmit (isOnline : Bool) (now : Nat) (net : NetPost)
    (d : Draft) (patients pendingStore : List Patient) : SubmitResult :=
  if d.fullName = "" || d.age.falsy || d.condition = "" then
    { patients := patients, pendingStore := pendingStore, postsIssued := 0,
      loggedOut := false, errorToast := some "Name, age and condition are required",
      savedOffline := false }
  else if !isOnline then
    let p := mkOfflinePatient d now
    { patients := patients ++ [p], pendingStore := pendingPut pendingStore p,
      postsIssued := 0, loggedOut := false, errorToast := none, savedOffline := true }
  else
    match net with
    | .ok rec =>
      { patients := patients ++ [rec], pendingStore := pendingStore, postsIssued := 1,
        loggedOut := false, errorToast := none, savedOffline := false }
    | .httpErr status =>
      if status = 422 then
        { patients := patients, pendingStore := pendingStore, postsIssued := 1,
          loggedOut := false, errorToast := some "Validation failed", savedOffline := false }
      else if status = 401 then
        { patients := patients, pendingStore := pendingStore, postsIssued := 1,
          loggedOut := true, errorToast := some "Session expired - please login again",
          savedOffline := false }
      else
        { patients := patients, pendingStore := pendingStore, postsIssued := 1,
          loggedOut := false, errorToast := some "Server error", savedOffline := false }
    | .transportErr =>
      { patients := patients, pendingStore := pendingStore, postsIssued := 1,
        loggedOut := false, errorToast := some "Failed to add patient", savedOffline := false }

/-- Result of the GET in `fetchPatients`: a 2xx response with the server list,
a 401 response, or any other failure (network error, non-2xx).  All non-2xx and
transport failures throw in axios and land in the same `catch`. -/
inductive FetchNet where
  | ok (recs : List Patient)
  | err401
  | errNet
deriving DecidableEq, Repr

/-- Observable outcome of one `fetchPatients` call: the in-memory list after
the call, whether `logout()` ran, whether the degraded-mode toast
(`'Using cached data - offline mode'`) or the failure toast
(`'Failed to load patient data'`) was shown, and whether the call threw. -/
structure FetchResult where
  patients : List Patient
  loggedOut : Bool
  usedCacheToast : Bool
  failToast : Bool
  threw : Bool
deriving DecidableEq, Repr

/-- Model of `fetchPatients`: on a 2xx response, set the list to the server records and
write them into the confirmed cache (a cache-write failure falls into the same
`catch` as a network failure, after the list was already set); on any failure,
read the confirmed cache (`cacheRead`, `none` modelling an unreadable cache) —
if readable, set the list to the cached records and toast degraded mode,
otherwise leave the list as it was and toast the failure.  Every path is
caught: the function never throws and never calls `logout()`. -/
def fetchPatients (net : FetchNet) (cacheRead : Option (List Patient))
    (cacheWriteOk : Bool) (prev : List Patient) : FetchResult :=
  match net with
  | .ok recs =>
    if cacheWriteOk then
      { patients := recs, loggedOut := false, usedCacheToast := false,
        failToast := false, threw := false }
    else
      match cacheRead with
      | some c =>
        { patients := c, loggedOut := false, usedCacheToast := true,
          failToast := false, threw := false }
      | none =>
        { patients := recs, loggedOut := false, usedCacheToast := false,
          failToast := true, threw := false }
  | _ =>
    match cacheRead with
    | some c =>
      { patients := c, loggedOut := false, usedCacheToast := true,
        failToast := false, threw := false }
    | none =>
      { patients := prev, loggedOut := false, usedCacheToast := false,
        failToast := true, threw := false }

/-- A fully populated confirmed (server-shape) sample record, used as concrete
input in witnesses and counterexamples. -/
def samplePatient (i : String) : Patient :=
  { id := i, fullName := "Jane Doe", age := 34, gender := "female",
    bloodType := some "O+", condition := "fever", severity := "medium",
    warnings := ["w1"], allergies := "", symptoms := "cough",
    emergencyContact := "", insuranceInfo := "", offline := false }

/-- A sample offline-queued record (pending-collection shape). -/
def sampleOffline (i : String) : Patient :=
  { samplePatient i with offline := true }

/-- A sample form draft that passes the required-field validation. -/
def sampleDraft : Draft :=
  { fullName := "Jane Doe", age := .num 34, gender := "female", bloodType := "O+",
    condition := "fever", severity := "medium", warnings := [], allergies := "",
    symptoms := "", emergencyContact := "", insuranceInfo := "" }

/-- Concrete failing sync input: one pending record whose POST fails. -/
def c1state : SyncState :=
  { isOnline := true, token := some "tok", pendingStore := [sampleOffline "offline-100"],
    patients := [sampleOffline "offline-100"], syncStatus := .upToDate }

/-- Oracle under which every sync POST fails. -/
def failingPost : PostOracle := fun _ => none

/-- Concrete pending records A, B, C for the ordering witness. -/
def c2a : Patient := sampleOffline "offline-1"

/-- Second pending record of the ordering witness. -/
def c2b : Patient := sampleOffline "offline-2"

/-- Third pending record of the ordering witness. -/
def c2c : Patient := sampleOffline "offline-3"

/-- Server record returned for A in the ordering witness. -/
def c2ra : Patient := samplePatient "57"

/-- Oracle for the ordering witness: A succeeds, everything else fails. -/
def c2post : PostOracle := fun p => if p.id = "offline-1" then some c2ra else none

/-- Sync state for the merge counterexample: two offline placeholders, both in
the in-memory list and in the pending collection. -/
def c3state : SyncState :=
  { isOnline := true, token := some "tok", pendingStore := [c2a, c2b],
    patients := [c2a, c2b], syncStatus := .upToDate }

/-- Concrete state for the empty-pending no-op witness. -/
def c8state : SyncState :=
  { isOnline := true, token := some "tok", pendingStore := [],
    patients := [samplePatient "1"], syncStatus := .error }

/-- A draft whose age field holds the number 0. -/
def c9draft : Draft := { sampleDraft with age := .num 0 }

/-- A second valid draft, distinct from `sampleDraft`, for the duplicate
temporary-identifier witness. -/
def c10draft : Draft := { sampleDraft with fullName := "John Roe", condition := "cough" }

/-- C1: a sync pass in which a pending record's POST fails nevertheless ends
with status `up-to-date`, because the source sets `up-to-date` unconditionally
after the loop, overwriting the `error` set in the failure branch.  Evaluated
at the concrete failing input: one pending record, POST fails. -/
theorem sync_failed_pass_still_ends_up_to_date :
    (syncPendingPatients failingPost c1state).loopFailed = true ∧
    (syncPendingPatients failingPost c1state).state.syncStatus = .upToDate ∧
    (syncPendingPatients failingPost c1state).state.pendingStore = c1state.pendingStore := by
  decide

/-- C8: re-invoking sync while online with a valid token and an empty pending
collection is a no-op — no POST issued, the pending store and the in-memory
list unchanged, and the final status is `up-to-date`. -/
theorem sync_empty_pending_noop (post : PostOracle) (s : SyncState)
    (hOn : s.isOnline = true) (hTok : tokenFalsy s.token = false)
    (hEmpty : s.pendingStore = []) :
    (syncPendingPatients post s).postsIssued = [] ∧
    (syncPendingPatients post s).state.pendingStore = s.pendingStore ∧
    (syncPendingPatients post s).state.patients = s.patients ∧
    (syncPendingPatients post s).state.syncStatus = .upToDate := by
  simp [syncPendingPatients, hOn, hTok, hEmpty]

/-- Witness for C8 at a concrete state (online, token `"tok"`, empty pending,
prior status `error`). -/
theorem sync_empty_pending_noop_witness :
    (syncPendingPatients failingPost c8state).postsIssued = [] ∧
    (syncPendingPatients failingPost c8state).state.pendingStore = c8state.pendingStore ∧
    (syncPendingPatients failingPost c8state).state.patients = c8state.patients ∧
    (syncPendingPatients failingPost c8state).state.syncStatus = .upToDate :=
  sync_empty_pending_noop failingPost c8state (by decide) (by decide) (by decide)

/-- C9: a draft whose age field is the number 0 or the empty string is rejected
by the client-side required-field check (falsy test), with no network call and
no store write, regardless of connectivity or network behaviour. -/
theorem submit_rejects_falsy_age (d : Draft) (isOnline : Bool) (now : Nat)
    (net : NetPost) (patients pend : List Patient)
    (hage : d.age = .num 0 ∨ d.age = .str "") :
    (handlePatientSubmit isOnline now net d patients pend).errorToast
        = some "Name, age and condition are required" ∧
    (handlePatientSubmit isOnline now net d patients pend).postsIssued = 0 ∧
    (handlePatientSubmit isOnline now net d patients pend).patients = patients ∧
    (handlePatientSubmit isOnline now net d patients pend).pendingStore = pend := by
  have hfalsy : d.age.falsy = true := by
    rcases hage with h | h <;> simp [h, JSVal.falsy]
  simp [handlePatientSubmit, hfalsy]

/-- Witness for C9: the sample draft with age 0, submitted while online with a
server that would accept it, is still rejected client-side. -/
theorem submit_rejects_falsy_age_witness :
    (handlePatientSubmit true 1000 (.ok (samplePatient "57")) c9draft [] []).errorToast
        = some "Name, age and condition are required" ∧
    (handlePatientSubmit true 1000 (.ok (samplePatient "57")) c9draft [] []).postsIssued = 0 ∧
    (handlePatientSubmit true 1000 (.ok (samplePatient "57")) c9draft [] []).patients = [] ∧
    (handlePatientSubmit true 1000 (.ok (samplePatient "57")) c9draft [] []).pendingStore = [] :=
  submit_rejects_falsy_age c9draft true 1000 (.ok (samplePatient "57")) [] []
    (Or.inl rfl)

/-- C7: when the list GET fails for any reason (401 or any other network
failure), `fetchPatients` does not throw, resolves with the confirmed-cache
records whenever the cache is readable, and yields an empty list only if the
cache is empty or unreadable. -/
theorem fetch_failure_falls_back_to_cache (net : FetchNet)
    (cacheRead : Option (List Patient)) (wOk : Bool) (prev : List Patient)
    (hnet : net = .err401 ∨ net = .errNet) :
    (fetchPatients net cacheRead wOk prev).threw = false ∧
    (∀ c, cacheRead = some c → (fetchPatients net cacheRead wOk prev).patients = c) ∧
    ((fetchPatients net cacheRead wOk prev).patients = [] →
      cacheRead = some [] ∨ cacheRead = none) := by
  rcases hnet with h | h <;> subst h <;> cases cacheRead <;> simp [fetchPatients]

/-- Witness for C7 at a concrete failing fetch with a populated cache. -/
theorem fetch_failure_falls_back_to_cache_witness :
    (fetchPatients .errNet (some [samplePatient "1"]) true []).threw = false ∧
    (∀ c, some [samplePatient "1"] = some c →
      (fetchPatients .errNet (some [samplePatient "1"]) true []).patients = c) ∧
    ((fetchPatients .errNet (some [samplePatient "1"]) true []).patients = [] →
      some [samplePatient "1"] = some [] ∨ some [samplePatient "1"] = none) :=
  fetch_failure_falls_back_to_cache .errNet (some [samplePatient "1"]) true []
    (Or.inr rfl)

/-- C2: with pending records A, B, C in that order, if A's POST succeeds and
B's fails, then at the end of the pass A has been deleted from the pending
collection, B and C both remain, and the POSTs issued are exactly A then B —
nothing after B is attempted. -/
theorem sync_halts_at_first_failure (post : PostOracle) (a b c ra : Patient)
    (tok : String) (patients : List Patient) (htok : tok ≠ "")
    (hba : b.id ≠ a.id) (hca : c.id ≠ a.id)
    (ha : post a = some ra) (hb : post b = none) :
    (syncPendingPatients post
        ⟨true, some tok, [a, b, c], patients, .upToDate⟩).state.pendingStore = [b, c] ∧
    (syncPendingPatients post
        ⟨true, some tok, [a, b, c], patients, .upToDate⟩).postsIssued = [a, b] := by
  simp [syncPendingPatients, tokenFalsy, htok, runSyncLoop, ha, hb, storeDelete, hba, hca]

/-- Witness for C2 at concrete pending records and oracle (A accepted as server
record 57, B rejected). -/
theorem sync_halts_at_first_failure_witness :
    (syncPendingPatients c2post
        ⟨true, some "tok", [c2a, c2b, c2c], [], .upToDate⟩).state.pendingStore = [c2b, c2c] ∧
    (syncPendingPatients c2post
        ⟨true, some "tok", [c2a, c2b, c2c], [], .upToDate⟩).postsIssued = [c2a, c2b] :=
  sync_halts_at_first_failure c2post c2a c2b c2c c2ra "tok" [] (by decide)
    (by decide) (by decide) (by decide) (by decide)

/-- During the drain loop, a record that was in the pending store at the start
and is gone at the end corresponds to a snapshot entry with the same key whose
POST returned success: the only delete in the loop runs after a successful
POST. -/
theorem runSyncLoop_removal (post : PostOracle) (q : Patient) :
    ∀ (l store : List Patient), q ∈ store →
      q ∉ (runSyncLoop post store l).store →
      ∃ p, p ∈ l ∧ p.id = q.id ∧ (post p).isSome := by
  intro l
  induction l with
  | nil =>
    intro store hq hout
    exact absurd hq hout
  | cons p rest ih =>
    intro store hq hout
    cases hpost : post p with
    | some r =>
      by_cases hid : q.id = p.id
      · exact ⟨p, List.mem_cons_self p rest, hid.symm, by simp [hpost]⟩
      · have hq' : q ∈ storeDelete store p.id := by
          simp only [storeDelete, List.mem_filter]
          exact ⟨hq, by simp [hid]⟩
        have hout' : q ∉ (runSyncLoop post (storeDelete store p.id) rest).store := by
          simpa [runSyncLoop, hpost] using hout
        obtain ⟨p', hp', hid', hs⟩ := ih (storeDelete store p.id) hq' hout'
        exact ⟨p', List.mem_cons_of_mem p hp', hid', hs⟩
    | none =>
      have hstore : (runSyncLoop post store (p :: rest)).store = store := by
        simp [runSyncLoop, hpost]
      exact absurd hq (hstore ▸ hout)

/-- C6: in a sync pass over a pending collection with pairwise-distinct keys,
any record that has been removed from the pending collection by the end of the
pass had a successful POST; a record whose POST did not succeed is never
deleted. -/
theorem pending_removed_only_after_success (post : PostOracle) (s : SyncState)
    (q : Patient)
    (hNodup : (s.pendingStore.map (fun p => p.id)).Nodup)
    (hq : q ∈ s.pendingStore)
    (hout : q ∉ (syncPendingPatients post s).state.pendingStore) :
    (post q).isSome := by
  by_cases hg : (!s.isOnline || tokenFalsy s.token) = true
  · rw [syncPendingPatients, if_pos hg] at hout
    exact absurd hq hout
  · by_cases he : s.pendingStore.isEmpty
    · rw [List.isEmpty_iff] at he
      rw [he] at hq
      cases hq
    · rw [syncPendingPatients, if_neg hg] at hout
      simp only [he, if_false, Bool.false_eq_true] at hout
      obtain ⟨p, hp, hid, hs⟩ :=
        runSyncLoop_removal post q s.pendingStore s.pendingStore hq hout
      have hpq : p = q := List.inj_on_of_nodup_map hNodup hp hq hid
      rwa [← hpq]

/-- Witness for C6: in the concrete A-succeeds state, A is removed from pending
and the theorem yields that A's POST succeeded. -/
theorem pending_removed_only_after_success_witness :
    (c2post c2a).isSome :=
  pending_removed_only_after_success c2post
    ⟨true, some "tok", [c2a, c2b, c2c], [], .upToDate⟩ c2a
    (by decide) (by decide) (by decide)

/-- C3 counterexample: in a pass where A syncs and B's POST fails, B's offline
placeholder is removed from the in-memory list even though B was not synced (it
is still in the pending collection) — the merge filters out every offline
record, not just the synced ones' placeholders. -/
theorem sync_merge_drops_unsynced_placeholder :
    c2b ∈ (syncPendingPatients c2post c3state).state.pendingStore ∧
    c2b ∉ (syncPendingPatients c2post c3state).state.patients := by
  decide

/-- C3 as amended: when at least one record was synced in the pass, the
in-memory list becomes the previous list with every offline-flagged record
removed, followed by the server-returned synced records; offline placeholders
of unsynced records do not remain. -/
theorem sync_merge_filters_all_offline (post : PostOracle) (s : SyncState)
    (hOn : s.isOnline = true) (hTok : tokenFalsy s.token = false)
    (hne : (runSyncLoop post s.pendingStore s.pendingStore).synced ≠ []) :
    (syncPendingPatients post s).state.patients
      = s.patients.filter (fun p => !p.offline)
        ++ (runSyncLoop post s.pendingStore s.pendingStore).synced := by
  have hne' : s.pendingStore ≠ [] := by
    intro h
    rw [h] at hne
    exact hne rfl
  cases hsync : (runSyncLoop post s.pendingStore s.pendingStore).synced with
  | nil => exact absurd hsync hne
  | cons x xs =>
    simp [syncPendingPatients, hOn, hTok, List.isEmpty_iff, hne', hsync]

/-- Witness for the amended C3 at the concrete A-syncs-B-fails state. -/
theorem sync_merge_filters_all_offline_witness :
    (syncPendingPatients c2post c3state).state.patients
      = c3state.patients.filter (fun p => !p.offline)
        ++ (runSyncLoop c2post c3state.pendingStore c3state.pendingStore).synced :=
  sync_merge_filters_all_offline c2post c3state (by decide) (by decide) (by decide)

/-- C4 counterexample: a 401 on the list fetch does not tear down the session
(the catch falls back to the cache without `logout()`), and a failing sync POST
(including a 401 response) likewise never logs out. -/
theorem fetch_401_does_not_logout :
    (fetchPatients .err401 (some [samplePatient "1"]) true []).loggedOut = false ∧
    (fetchPatients .err401 (some [samplePatient "1"]) true []).usedCacheToast = true ∧
    (syncPendingPatients failingPost c1state).loggedOut = false := by
  decide

/-- C4 as amended: only the create path tears down the session on a 401 —
`handlePatientSubmit` logs out on a 401 response after its single POST, while
the list fetch treats a 401 like any other failure (cache fallback, no
teardown) and a sync-pass POST failure never logs out. -/
theorem only_create_path_logs_out_on_401 (d : Draft) (now : Nat)
    (patients pend : List Patient)
    (h1 : d.fullName ≠ "") (h2 : d.age.falsy = false) (h3 : d.condition ≠ "") :
    (handlePatientSubmit true now (.httpErr 401) d patients pend).loggedOut = true ∧
    (handlePatientSubmit true now (.httpErr 401) d patients pend).postsIssued = 1 ∧
    (∀ cr wOk prev, (fetchPatients .err401 cr wOk prev).loggedOut = false) ∧
    (∀ post s, (syncPendingPatients post s).loggedOut = false) := by
  refine ⟨?_, ?_, ?_, ?_⟩
  · simp [handlePatientSubmit, h1, h2, h3]
  · simp [handlePatientSubmit, h1, h2, h3]
  · intro cr wOk prev
    cases cr <;> simp [fetchPatients]
  · intro post s
    by_cases hg : (!s.isOnline || tokenFalsy s.token) = true
    · simp [syncPendingPatients, hg]
    · by_cases he : s.pendingStore.isEmpty <;> simp [syncPendingPatients, hg, he]

/-- Witness for the amended C4 at the sample draft and empty stores. -/
theorem only_create_path_logs_out_on_401_witness :
    (handlePatientSubmit true 1000 (.httpErr 401) sampleDraft [] []).loggedOut = true ∧
    (handlePatientSubmit true 1000 (.httpErr 401) sampleDraft [] []).postsIssued = 1 ∧
    (∀ cr wOk prev, (fetchPatients .err401 cr wOk prev).loggedOut = false) ∧
    (∀ post s, (syncPendingPatients post s).loggedOut = false) :=
  only_create_path_logs_out_on_401 sampleDraft 1000 [] []
    (by decide) (by decide) (by decide)

/-- C5 counterexample: a transport failure of the create POST while the
connectivity flag is true is not queued — the pending store is untouched, the
offline-save branch does not run, and the generic failure message is surfaced
without storing the record. -/
theorem online_transport_error_not_queued :
    (handlePatientSubmit true 1000 .transportErr sampleDraft [] []).pendingStore = [] ∧
    (handlePatientSubmit true 1000 .transportErr sampleDraft [] []).savedOffline = false ∧
    (handlePatientSubmit true 1000 .transportErr sampleDraft [] []).errorToast
        = some "Failed to add patient" := by
  decide

/-- C5 as amended: queueing is decided solely by the connectivity flag before
any network call — when the flag is false the record is queued with the
temporary identifier and `offline=true` and no POST is issued (independent of
network behaviour), while a transport failure during an online POST stores
nothing and surfaces the generic error. -/
theorem queueing_decided_by_offline_flag (d : Draft) (now : Nat)
    (ps pend : List Patient)
    (h1 : d.fullName ≠ "") (h2 : d.age.falsy = false) (h3 : d.condition ≠ "") :
    (∀ net, (handlePatientSubmit false now net d ps pend).pendingStore
          = pendingPut pend (mkOfflinePatient d now) ∧
        (handlePatientSubmit false now net d ps pend).postsIssued = 0 ∧
        (handlePatientSubmit false now net d ps pend).savedOffline = true) ∧
    (mkOfflinePatient d now).offline = true ∧
    (mkOfflinePatient d now).id = tempId now ∧
    (handlePatientSubmit true now .transportErr d ps pend).pendingStore = pend ∧
    (handlePatientSubmit true now .transportErr d ps pend).patients = ps ∧
    (handlePatientSubmit true now .transportErr d ps pend).errorToast
        = some "Failed to add patient" := by
  refine ⟨fun net => ⟨?_, ?_, ?_⟩, rfl, rfl, ?_, ?_, ?_⟩ <;>
    simp [handlePatientSubmit, h1, h2, h3]

/-- Witness for the amended C5 at the sample draft and empty stores. -/
theorem queueing_decided_by_offline_flag_witness :
    (∀ net, (handlePatientSubmit false 1000 net sampleDraft [] []).pendingStore
          = pendingPut [] (mkOfflinePatient sampleDraft 1000) ∧
        (handlePatientSubmit false 1000 net sampleDraft [] []).postsIssued = 0 ∧
        (handlePatientSubmit false 1000 net sampleDraft [] []).savedOffline = true) ∧
    (mkOfflinePatient sampleDraft 1000).offline = true ∧
    (mkOfflinePatient sampleDraft 1000).id = tempId 1000 ∧
    (handlePatientSubmit true 1000 .transportErr sampleDraft [] []).pendingStore = [] ∧
    (handlePatientSubmit true 1000 .transportErr sampleDraft [] []).patients = [] ∧
    (handlePatientSubmit true 1000 .transportErr sampleDraft [] []).errorToast
        = some "Failed to add patient" :=
  queueing_decided_by_offline_flag sampleDraft 1000 [] []
    (by decide) (by decide) (by decide)

/-- Helper: a `put` with a key absent from the store appends. -/
theorem pendingPut_fresh (store : List Patient) (p : Patient)
    (h : ∀ q ∈ store, q.id ≠ p.id) :
    pendingPut store p = store ++ [p] := by
  have hany : store.any (fun q => q.id == p.id) = false := by
    rw [List.any_eq_false]
    intro q hq
    simp [h q hq]
  simp [pendingPut, hany]

/-- C10: two offline creates executed with the same `Date.now()` value produce
equal temporary identifiers, and because the pending collection's `put` upserts
by key, the second record overwrites the first — filtering the final pending
store by that identifier yields exactly the second record, so at most one of
the two survives. -/
theorem same_timestamp_offline_creates_collide (d1 d2 : Draft) (now : Nat)
    (net1 net2 : NetPost) (ps pend : List Patient)
    (h11 : d1.fullName ≠ "") (h12 : d1.age.falsy = false) (h13 : d1.condition ≠ "")
    (h21 : d2.fullName ≠ "") (h22 : d2.age.falsy = false) (h23 : d2.condition ≠ "")
    (hfresh : ∀ q ∈ pend, q.id ≠ tempId now) :
    (mkOfflinePatient d1 now).id = (mkOfflinePatient d2 now).id ∧
    ((handlePatientSubmit false now net2 d2
        (handlePatientSubmit false now net1 d1 ps pend).patients
        (handlePatientSubmit false now net1 d1 ps pend).pendingStore).pendingStore).filter
        (fun q => q.id == tempId now) = [mkOfflinePatient d2 now] := by
  refine ⟨rfl, ?_⟩
  have hsub1 : (handlePatientSubmit false now net1 d1 ps pend).pendingStore
      = pendingPut pend (mkOfflinePatient d1 now) := by
    simp [handlePatientSubmit, h11, h12, h13]
  have hsub2 : ∀ ps' pend',
      (handlePatientSubmit false now net2 d2 ps' pend').pendingStore
        = pendingPut pend' (mkOfflinePatient d2 now) := by
    intro ps' pend'
    simp [handlePatientSubmit, h21, h22, h23]
  rw [hsub2, hsub1, pendingPut_fresh pend (mkOfflinePatient d1 now) hfresh]
  have hany : (pend ++ [mkOfflinePatient d1 now]).any
      (fun q => q.id == (mkOfflinePatient d2 now).id) = true := by
    rw [List.any_append]
    simp only [List.any_cons, List.any_nil, Bool.or_false]
    have hid : (mkOfflinePatient d1 now).id = (mkOfflinePatient d2 now).id := rfl
    simp [hid]
  rw [pendingPut, if_pos hany, List.map_append, List.filter_append]
  have hmap : pend.map
      (fun q => if q.id == (mkOfflinePatient d2 now).id then mkOfflinePatient d2 now else q)
      = pend := by
    have := List.map_congr_left (l := pend)
      (g := fun q : Patient => q)
      (f := fun q : Patient =>
        if q.id == (mkOfflinePatient d2 now).id then mkOfflinePatient d2 now else q)
      (fun q hq => by
        have h' : q.id ≠ (mkOfflinePatient d2 now).id := hfresh q hq
        simp [h'])
    simpa using this
  rw [hmap]
  have hpendfilter : pend.filter (fun q => q.id == tempId now) = [] := by
    rw [List.filter_eq_nil_iff]
    intro q hq
    simp [hfresh q hq]
  rw [hpendfilter]
  have hid12 : (mkOfflinePatient d1 now).id = (mkOfflinePatient d2 now).id := rfl
  have hid2 : (mkOfflinePatient d2 now).id = tempId now := rfl
  simp [hid12, hid2]

/-- Witness for C10: two distinct valid drafts submitted offline at the same
millisecond leave only the second record under the shared temporary id. -/
theorem same_timestamp_offline_creates_collide_witness :
    (mkOfflinePatient sampleDraft 1000).id = (mkOfflinePatient c10draft 1000).id ∧
    ((handlePatientSubmit false 1000 .transportErr c10draft
        (handlePatientSubmit false 1000 .transportErr sampleDraft [] []).patients
        (handlePatientSubmit false 1000 .transportErr sampleDraft [] []).pendingStore).pendingStore).filter
        (fun q => q.id == tempId 1000) = [mkOfflinePatient c10draft 1000] :=
  same_timestamp_offline_creates_collide sampleDraft c10draft 1000
    .transportErr .transportErr [] []
    (by decide) (by decide) (by decide) (by decide) (by decide) (by decide)
    (by intro q hq; cases hq)

end CareChain
